import Mathlib

/-
Verification of the `pipe` orchestrator (src/rbx/resources/packagers/boca/pipe.c).

The program runs a solution and an interactor, each holding the write end of a
private signalling pipe, detects which one finishes first via EPOLLHUP, waits
for both, converts their raw waitpid statuses to shell-style codes, cascades a
SIGTERM when a resolved status is non-zero, and prints three lines:
winner tag, solution status, interactor status.

This file shallowly embeds the C functions as executable Lean definitions and
proves the specified properties about them.  Machine integers are modelled as
Nat with explicit bit masks; the stateful parts (file-descriptor table, the
two-iteration wait loop) are modelled as explicit state passing.
-/

-- ===== Constants (pipe.c lines 17-19) =====

def SOLUTION_TAG : Nat := 1

def INTERACTOR_TAG : Nat := 2

inductive Side where
  | solution
  | interactor
deriving DecidableEq

def other_side : Side → Side
  | Side.solution => Side.interactor
  | Side.interactor => Side.solution

-- ===== Status conversion (pipe.c `bash_like_status`, lines 66-80) =====
-- The W* macros are modelled after glibc bits/waitstatus.h, which pipe.c
-- compiles against.  `signed_char_of` models the (signed char) cast used by
-- WIFSIGNALED; the subsequent arithmetic right shift by one is division by
-- two (exact here: the only negative value reachable is -128).

def WTERMSIG (s : Nat) : Nat := s &&& 0x7f

def WEXITSTATUS (s : Nat) : Nat := (s &&& 0xff00) >>> 8

def WSTOPSIG (s : Nat) : Nat := WEXITSTATUS s

def signed_char_of (n : Nat) : Int :=
  if n % 256 < 128 then ((n % 256 : Nat) : Int) else ((n % 256 : Nat) : Int) - 256

def WIFEXITED (s : Nat) : Bool := WTERMSIG s == 0

def WIFSIGNALED (s : Nat) : Bool := decide (0 < signed_char_of (WTERMSIG s + 1) / 2)

def WIFSTOPPED (s : Nat) : Bool := (s &&& 0xff) == 0x7f

def bash_like_status (s : Nat) : Nat :=
  if WIFEXITED s then WEXITSTATUS s
  else if WIFSIGNALED s then 128 + WTERMSIG s
  else if WIFSTOPPED s then 128 + WSTOPSIG s
  else 0

-- ===== Argument model (pipe.c `parse_arguments`, lines 112-236) =====

structure ProcessArgs where
  argv : List String := []
  input : Option String := none
  output : Option String := none
  stderr : Option String := none
deriving DecidableEq

structure ParsedArgs where
  show_help : Bool := false
  solution_input : Option String := none
  solution_output : Option String := none
  solution_stderr : Option String := none
  interactor_stderr : Option String := none
  solution_args : ProcessArgs := {}
  interactor_args : ProcessArgs := {}
  verbose : Bool := false
deriving DecidableEq

def initParsedArgs : ParsedArgs := {}

-- Outcome of the flag-scanning loop (pipe.c lines 121-181): either a fatal
-- diagnostic (`die`), the help path (print_help, exit 0), or the position of
-- the "--" delimiter together with the accumulated flags.
inductive ScanOut where
  | err (msg : String)
  | help
  | delim (acc : ParsedArgs) (rest : List String)
deriving DecidableEq

def scanFlags : List String → ParsedArgs → ScanOut
  | [], _ => ScanOut.err "Missing \x27--\x27 delimiter for solution arguments"
  | t :: rest, acc =>
    if t = "--" then ScanOut.delim acc rest
    else if t = "-h" ∨ t = "--help" then ScanOut.help
    else if t = "-i" then
      match rest with
      | [] => ScanOut.err "-i flag requires an argument"
      | v :: rest2 => scanFlags rest2 { acc with solution_input := some v }
    else if t = "-o" then
      match rest with
      | [] => ScanOut.err "-o flag requires an argument"
      | v :: rest2 => scanFlags rest2 { acc with solution_output := some v }
    else if t = "-e" then
      match rest with
      | [] => ScanOut.err "-e flag requires an argument"
      | v :: rest2 => scanFlags rest2 { acc with solution_stderr := some v }
    else if t = "-E" then
      match rest with
      | [] => ScanOut.err "-E flag requires an argument"
      | v :: rest2 => scanFlags rest2 { acc with interactor_stderr := some v }
    else if t = "-v" then scanFlags rest { acc with verbose := true }
    else ScanOut.err "Invalid argument"

-- Index of the first "=" token (pipe.c lines 188-193).
def findEq : List String → Option Nat
  | [] => none
  | t :: rest => if t = "=" then some 0 else (findEq rest).map (fun n => n + 1)

inductive ParseResult where
  | ok (a : ParsedArgs)
  | err (msg : String)
  | help
deriving DecidableEq

-- Splitting of the tokens after "--" at the first "=" (pipe.c lines 187-234).
def parseTail (acc : ParsedArgs) (rest : List String) : ParseResult :=
  match findEq rest with
  | none => ParseResult.err "Missing \x27=\x27 delimiter for interactor arguments"
  | some k =>
    if (rest.take k).length = 0 then ParseResult.err "No solution arguments provided"
    else if (rest.drop (k + 1)).length = 0 then ParseResult.err "No interactor arguments provided"
    else ParseResult.ok { acc with
      solution_args := { argv := rest.take k },
      interactor_args := { argv := rest.drop (k + 1) } }

-- `tokens` is argv[1..] (the program name is skipped at pipe.c line 121).
def parse_arguments (tokens : List String) : ParseResult :=
  match scanFlags tokens initParsedArgs with
  | ScanOut.err m => ParseResult.err m
  | ScanOut.help => ParseResult.help
  | ScanOut.delim acc rest => parseTail acc rest

def recognized_flag (t : String) : Bool :=
  t == "--" || t == "-h" || t == "--help" || t == "-i" || t == "-o" ||
  t == "-e" || t == "-E" || t == "-v"

-- main spawns the two children (pipe.c lines 304-305) only after
-- parse_arguments returns; die/exit paths spawn nothing.
def spawned_children (tokens : List String) : List Side :=
  match parse_arguments tokens with
  | ParseResult.ok _ => [Side.solution, Side.interactor]
  | _ => []

-- Exit code of the paths that terminate inside argument parsing:
-- `die` exits 1 (line 43), `print_help` exits 0 (line 62).
def parse_exit_code : ParseResult → Option Nat
  | ParseResult.err _ => some 1
  | ParseResult.help => some 0
  | ParseResult.ok _ => none

-- ===== Stdio wiring (pipe.c lines 238-254) and the child side of
-- `run_process` (lines 268-273) =====

def fill_in_solution_stdio (args : ParsedArgs) : ParsedArgs :=
  match args.solution_stderr with
  | some f => { args with solution_args := { args.solution_args with stderr := some f } }
  | none => args

def fill_in_interactor_stdio (args : ParsedArgs) : ParsedArgs :=
  let a1 :=
    match args.solution_input with
    | some f => { args with interactor_args := { args.interactor_args with output := some f } }
    | none => args
  let a2 :=
    match a1.solution_output with
    | some f => { a1 with interactor_args := { a1.interactor_args with input := some f } }
    | none => a1
  match a2.interactor_stderr with
  | some f => { a2 with interactor_args := { a2.interactor_args with stderr := some f } }
  | none => a2

-- main applies both fills, in this order (pipe.c lines 300-301).
def fill_all (args : ParsedArgs) : ParsedArgs :=
  fill_in_interactor_stdio (fill_in_solution_stdio args)

-- Streams of the spawned child: run_process freopens stdin/stdout/stderr
-- to the configured files when present (pipe.c lines 269-271); a `none`
-- field leaves the stream inherited from the parent.
structure ChildStdio where
  stdin_file : Option String
  stdout_file : Option String
  stderr_file : Option String
deriving DecidableEq

def run_process_stdio (p : ProcessArgs) : ChildStdio :=
  { stdin_file := p.input, stdout_file := p.output, stderr_file := p.stderr }

-- ===== Placeholder substitution (pipe.c `replace_fd_in_args`, lines 83-110) =====

def fdPattern : List Char := ['_', '_', 'F', 'D', '_', '_']

-- Index of the first occurrence of `pat` in `hay` (C strstr).
def strstrIdx : List Char → List Char → Option Nat
  | hay, pat =>
    if pat.isPrefixOf hay then some 0
    else
      match hay with
      | [] => none
      | _ :: t => (strstrIdx t pat).map (fun n => n + 1)

def containsPat (hay pat : List Char) : Bool := (strstrIdx hay pat).isSome

-- snprintf "%d" of the (non-negative) descriptor number.
def fd_str (fd : Nat) : List Char := (Nat.repr fd).toList

-- One token: strstr finds the first occurrence; the new string is
-- prefix ++ fd_str ++ suffix-after-the-six-placeholder-chars
-- (pipe.c lines 88-107; there is no loop over further occurrences).
def replace_fd_token (arg : List Char) (fd : Nat) : List Char :=
  match strstrIdx arg fdPattern with
  | none => arg
  | some i => arg.take i ++ fd_str fd ++ arg.drop (i + 6)

def replace_fd_in_args (argv : List (List Char)) (fd : Nat) : List (List Char) :=
  argv.map (fun a => replace_fd_token a fd)

-- ===== Parent-side descriptor lifecycle (pipe.c `create_pipe` lines 256-262,
-- `run_process` parent side lines 264-278, main lines 286-305) =====

inductive FdOp where
  | clearCloexec (fd : Nat)
  | setCloexec (fd : Nat)
  | closeFd (fd : Nat)
deriving DecidableEq

inductive SpawnEvent where
  | op (o : FdOp)
  | forked (s : Side)
deriving DecidableEq

structure FdState where
  open_fds : List Nat
  cloexec_fds : List Nat
deriving DecidableEq

def applyFdOp (s : FdState) (op : FdOp) : FdState :=
  match op with
  | FdOp.clearCloexec fd => { s with cloexec_fds := s.cloexec_fds.filter (fun x => x ≠ fd) }
  | FdOp.setCloexec fd => { s with cloexec_fds := fd :: s.cloexec_fds }
  | FdOp.closeFd fd =>
    { open_fds := s.open_fds.filter (fun x => x ≠ fd),
      cloexec_fds := s.cloexec_fds.filter (fun x => x ≠ fd) }

def applyEvent (s : FdState) (e : SpawnEvent) : FdState :=
  match e with
  | SpawnEvent.op o => applyFdOp s o
  | SpawnEvent.forked _ => s

def apply_events (s : FdState) (es : List SpawnEvent) : FdState :=
  es.foldl applyEvent s

-- create_pipe: pipe(2) opens both endpoints, then FD_CLOEXEC is set on each.
def create_pipe_events (r w : Nat) : List SpawnEvent :=
  [SpawnEvent.op (FdOp.setCloexec r), SpawnEvent.op (FdOp.setCloexec w)]

def create_pipe_state (s : FdState) (r w : Nat) : FdState :=
  apply_events { s with open_fds := w :: r :: s.open_fds } (create_pipe_events r w)

-- run_process, parent side: clear FD_CLOEXEC on the private fd of the side, fork,
-- then restore FD_CLOEXEC and close the copy held by the parent (pipe.c 266, 267, 276, 277).
def run_process_events (side : Side) (fd : Nat) : List SpawnEvent :=
  [SpawnEvent.op (FdOp.clearCloexec fd), SpawnEvent.forked side,
   SpawnEvent.op (FdOp.setCloexec fd), SpawnEvent.op (FdOp.closeFd fd)]

-- Parent fd-table evolution of main lines 286-305: create both pipes, then
-- spawn solution (private fd w1) and interactor (private fd w2).
def main_fd_state (s0 : FdState) (r1 w1 r2 w2 : Nat) : FdState :=
  let s1 := create_pipe_state s0 r1 w1
  let s2 := create_pipe_state s1 r2 w2
  let s3 := apply_events s2 (run_process_events Side.solution w1)
  apply_events s3 (run_process_events Side.interactor w2)

-- ===== Termination wait and reporting (pipe.c main, lines 324-362) =====

-- Which pid iteration i of the wait loop awaits (pipe.c line 340):
-- pid = (i ^ (first_tag == SOLUTION_TAG)) ? solution_pid : interactor_pid.
def waitPick (i first_tag : Nat) : Side :=
  if (i ^^^ (if first_tag = SOLUTION_TAG then 1 else 0)) ≠ 0 then Side.solution
  else Side.interactor

def wait_order (first_tag : Nat) : List Side :=
  [waitPick 0 first_tag, waitPick 1 first_tag]

def side_of_tag (t : Nat) : Side :=
  if t = SOLUTION_TAG then Side.solution else Side.interactor

-- Inputs the reporting phase observes from the OS: the tag returned by
-- epoll_wait (only SOLUTION_TAG and INTERACTOR_TAG are registered), the raw
-- waitpid statuses, and whether each kill(2) call would fail.
structure RunEnv where
  first_tag : Nat
  solution_raw : Nat
  interactor_raw : Nat
  kill_solution_fails : Bool
  kill_interactor_fails : Bool
deriving DecidableEq

structure LoopState where
  solution_status : Nat
  interactor_status : Nat
  kills_sent : List Side
  kill_fail_logs : List Side
deriving DecidableEq

def initLoopState : LoopState :=
  { solution_status := 0, interactor_status := 0, kills_sent := [], kill_fail_logs := [] }

-- One iteration of the loop at pipe.c lines 339-357: resolve the awaited
-- status of that side; if non-zero, SIGTERM the other side, logging a failed
-- delivery to stderr (non-fatally).
def wait_step (env : RunEnv) (st : LoopState) (side : Side) : LoopState :=
  match side with
  | Side.solution =>
    let s := bash_like_status env.solution_raw
    if s ≠ 0 then
      { st with
          solution_status := s,
          kills_sent := st.kills_sent ++ [Side.interactor],
          kill_fail_logs :=
            if env.kill_interactor_fails then st.kill_fail_logs ++ [Side.interactor]
            else st.kill_fail_logs }
    else { st with solution_status := s }
  | Side.interactor =>
    let s := bash_like_status env.interactor_raw
    if s ≠ 0 then
      { st with
          interactor_status := s,
          kills_sent := st.kills_sent ++ [Side.solution],
          kill_fail_logs :=
            if env.kill_solution_fails then st.kill_fail_logs ++ [Side.solution]
            else st.kill_fail_logs }
    else { st with interactor_status := s }

structure ReportResult where
  stdout_lines : List String
  exit_code : Nat
  kills_sent : List Side
  kill_fail_logs : List Side
deriving DecidableEq

-- State after the two iterations of the wait loop (pipe.c lines 339-357).
def final_loop_state (env : RunEnv) : LoopState :=
  (wait_order env.first_tag).foldl (wait_step env) initLoopState

-- The whole reporting phase (pipe.c lines 339-362): the wait loop followed by
-- the three fprintf("%d\n") lines and exit(0).
def report_phase (env : RunEnv) : ReportResult :=
  { stdout_lines :=
      [Nat.repr env.first_tag,
       Nat.repr (final_loop_state env).solution_status,
       Nat.repr (final_loop_state env).interactor_status],
    exit_code := 0,
    kills_sent := (final_loop_state env).kills_sent,
    kill_fail_logs := (final_loop_state env).kill_fail_logs }

-- Each stdout line is written newline-terminated by fprintf("%d\n", ...).
def render_lines : List String → String
  | [] => ""
  | l :: ls => l ++ "\n" ++ render_lines ls

def render_stdout (r : ReportResult) : String :=
  render_lines r.stdout_lines

-- ===== Helper lemmas: status conversion =====

lemma wtermsig_lt (s : Nat) : WTERMSIG s < 128 :=
  Nat.lt_succ_of_le Nat.and_le_right

lemma signaled_char : ∀ t : Fin 128,
    decide (0 < signed_char_of (t.val + 1) / 2) =
      (decide (1 ≤ t.val) && decide (t.val ≤ 126)) := by
  decide

lemma wifsignaled_eq (s : Nat) :
    WIFSIGNALED s = (decide (1 ≤ WTERMSIG s) && decide (WTERMSIG s ≤ 126)) :=
  signaled_char ⟨WTERMSIG s, wtermsig_lt s⟩

lemma stopped_termsig (s : Nat) (h : WIFSTOPPED s = true) : WTERMSIG s = 127 := by
  have h255 : s &&& 255 = 127 := by simpa [WIFSTOPPED] using h
  have e1 : (255 : Nat) &&& 127 = 127 := by decide
  calc WTERMSIG s = s &&& (255 &&& 127) := by rw [e1]; rfl
    _ = (s &&& 255) &&& 127 := (Nat.land_assoc s 255 127).symm
    _ = 127 &&& 127 := by rw [h255]
    _ = 127 := by decide

-- ===== Helper lemmas: the wait loop =====

lemma ws_sol_solstat (env : RunEnv) (st : LoopState) :
    (wait_step env st Side.solution).solution_status = bash_like_status env.solution_raw := by
  unfold wait_step
  dsimp only
  split <;> rfl

lemma ws_sol_interstat (env : RunEnv) (st : LoopState) :
    (wait_step env st Side.solution).interactor_status = st.interactor_status := by
  unfold wait_step
  dsimp only
  split <;> rfl

lemma ws_inter_interstat (env : RunEnv) (st : LoopState) :
    (wait_step env st Side.interactor).interactor_status = bash_like_status env.interactor_raw := by
  unfold wait_step
  dsimp only
  split <;> rfl

lemma ws_inter_solstat (env : RunEnv) (st : LoopState) :
    (wait_step env st Side.interactor).solution_status = st.solution_status := by
  unfold wait_step
  dsimp only
  split <;> rfl

lemma ws_kills_mono (env : RunEnv) (st : LoopState) (side : Side) (x : Side)
    (h : x ∈ st.kills_sent) : x ∈ (wait_step env st side).kills_sent := by
  cases side <;> unfold wait_step <;> dsimp only <;> split <;>
    first
      | exact h
      | (simp only [List.mem_append]; exact Or.inl h)

lemma ws_logs_mono (env : RunEnv) (st : LoopState) (side : Side) (x : Side)
    (h : x ∈ st.kill_fail_logs) : x ∈ (wait_step env st side).kill_fail_logs := by
  cases side <;> unfold wait_step <;> dsimp only <;> split <;>
    first
      | exact h
      | (dsimp only
         split <;>
           first
             | exact h
             | (simp only [List.mem_append]; exact Or.inl h))

lemma ws_sol_kill (env : RunEnv) (st : LoopState)
    (h : bash_like_status env.solution_raw ≠ 0) :
    Side.interactor ∈ (wait_step env st Side.solution).kills_sent := by
  unfold wait_step
  dsimp only
  rw [if_pos h]
  simp

lemma ws_inter_kill (env : RunEnv) (st : LoopState)
    (h : bash_like_status env.interactor_raw ≠ 0) :
    Side.solution ∈ (wait_step env st Side.interactor).kills_sent := by
  unfold wait_step
  dsimp only
  rw [if_pos h]
  simp

lemma ws_sol_log (env : RunEnv) (st : LoopState)
    (h : bash_like_status env.solution_raw ≠ 0) (hf : env.kill_interactor_fails = true) :
    Side.interactor ∈ (wait_step env st Side.solution).kill_fail_logs := by
  unfold wait_step
  dsimp only
  rw [if_pos h]
  dsimp only
  rw [if_pos hf]
  simp

lemma ws_inter_log (env : RunEnv) (st : LoopState)
    (h : bash_like_status env.interactor_raw ≠ 0) (hf : env.kill_solution_fails = true) :
    Side.solution ∈ (wait_step env st Side.interactor).kill_fail_logs := by
  unfold wait_step
  dsimp only
  rw [if_pos h]
  dsimp only
  rw [if_pos hf]
  simp

lemma wait_order_sol : wait_order SOLUTION_TAG = [Side.solution, Side.interactor] := by
  decide

lemma wait_order_inter : wait_order INTERACTOR_TAG = [Side.interactor, Side.solution] := by
  decide

lemma final_loop_one (env : RunEnv) (h : env.first_tag = SOLUTION_TAG) :
    final_loop_state env =
      wait_step env (wait_step env initLoopState Side.solution) Side.interactor := by
  unfold final_loop_state
  rw [h, wait_order_sol]
  rfl

lemma final_loop_two (env : RunEnv) (h : env.first_tag = INTERACTOR_TAG) :
    final_loop_state env =
      wait_step env (wait_step env initLoopState Side.interactor) Side.solution := by
  unfold final_loop_state
  rw [h, wait_order_inter]
  rfl

lemma final_sol_status (env : RunEnv)
    (h : env.first_tag = SOLUTION_TAG ∨ env.first_tag = INTERACTOR_TAG) :
    (final_loop_state env).solution_status = bash_like_status env.solution_raw := by
  rcases h with h | h
  · rw [final_loop_one env h, ws_inter_solstat, ws_sol_solstat]
  · rw [final_loop_two env h, ws_sol_solstat]

lemma final_inter_status (env : RunEnv)
    (h : env.first_tag = SOLUTION_TAG ∨ env.first_tag = INTERACTOR_TAG) :
    (final_loop_state env).interactor_status = bash_like_status env.interactor_raw := by
  rcases h with h | h
  · rw [final_loop_one env h, ws_inter_interstat]
  · rw [final_loop_two env h, ws_sol_interstat, ws_inter_interstat]

lemma final_kill_inter (env : RunEnv)
    (h : env.first_tag = SOLUTION_TAG ∨ env.first_tag = INTERACTOR_TAG)
    (hnz : bash_like_status env.solution_raw ≠ 0) :
    Side.interactor ∈ (final_loop_state env).kills_sent := by
  rcases h with h | h
  · rw [final_loop_one env h]
    exact ws_kills_mono env _ Side.interactor Side.interactor (ws_sol_kill env _ hnz)
  · rw [final_loop_two env h]
    exact ws_sol_kill env _ hnz

lemma final_kill_sol (env : RunEnv)
    (h : env.first_tag = SOLUTION_TAG ∨ env.first_tag = INTERACTOR_TAG)
    (hnz : bash_like_status env.interactor_raw ≠ 0) :
    Side.solution ∈ (final_loop_state env).kills_sent := by
  rcases h with h | h
  · rw [final_loop_one env h]
    exact ws_inter_kill env _ hnz
  · rw [final_loop_two env h]
    exact ws_kills_mono env _ Side.solution Side.solution (ws_inter_kill env _ hnz)

lemma final_log_inter (env : RunEnv)
    (h : env.first_tag = SOLUTION_TAG ∨ env.first_tag = INTERACTOR_TAG)
    (hnz : bash_like_status env.solution_raw ≠ 0)
    (hf : env.kill_interactor_fails = true) :
    Side.interactor ∈ (final_loop_state env).kill_fail_logs := by
  rcases h with h | h
  · rw [final_loop_one env h]
    exact ws_logs_mono env _ Side.interactor Side.interactor (ws_sol_log env _ hnz hf)
  · rw [final_loop_two env h]
    exact ws_sol_log env _ hnz hf

lemma final_log_sol (env : RunEnv)
    (h : env.first_tag = SOLUTION_TAG ∨ env.first_tag = INTERACTOR_TAG)
    (hnz : bash_like_status env.interactor_raw ≠ 0)
    (hf : env.kill_solution_fails = true) :
    Side.solution ∈ (final_loop_state env).kill_fail_logs := by
  rcases h with h | h
  · rw [final_loop_one env h]
    exact ws_inter_log env _ hnz hf
  · rw [final_loop_two env h]
    exact ws_logs_mono env _ Side.solution Side.solution (ws_inter_log env _ hnz hf)

-- ===== Helper lemmas: argument parsing =====

lemma scan_no_delim : ∀ (ts : List String) (acc : ParsedArgs), "--" ∉ ts → "-h" ∉ ts →
    "--help" ∉ ts → ∃ m, scanFlags ts acc = ScanOut.err m := by
  intro ts acc
  induction ts, acc using scanFlags.induct with
  | case1 acc =>
    exact fun _ _ _ => ⟨_, rfl⟩
  | case2 rest acc =>
    intro h1 _ _
    exact absurd (List.mem_cons_self "--" rest) h1
  | case3 t rest acc hd hh =>
    intro _ h2 h3
    rcases hh with hh | hh
    · exact absurd (hh ▸ List.mem_cons_self t rest) h2
    · exact absurd (hh ▸ List.mem_cons_self t rest) h3
  | case4 acc h1 h2 =>
    exact fun _ _ _ => ⟨_, rfl⟩
  | case5 acc v rest2 h1 h2 ih =>
    intro g1 g2 g3
    simp only [List.mem_cons, not_or] at g1 g2 g3
    obtain ⟨m, hm⟩ := ih g1.2.2 g2.2.2 g3.2.2
    exact ⟨m, hm⟩
  | case6 acc h1 h2 h3 =>
    exact fun _ _ _ => ⟨_, rfl⟩
  | case7 acc v rest2 h1 h2 h3 ih =>
    intro g1 g2 g3
    simp only [List.mem_cons, not_or] at g1 g2 g3
    obtain ⟨m, hm⟩ := ih g1.2.2 g2.2.2 g3.2.2
    exact ⟨m, hm⟩
  | case8 acc h1 h2 h3 h4 =>
    exact fun _ _ _ => ⟨_, rfl⟩
  | case9 acc v rest2 h1 h2 h3 h4 ih =>
    intro g1 g2 g3
    simp only [List.mem_cons, not_or] at g1 g2 g3
    obtain ⟨m, hm⟩ := ih g1.2.2 g2.2.2 g3.2.2
    exact ⟨m, hm⟩
  | case10 acc h1 h2 h3 h4 h5 =>
    exact fun _ _ _ => ⟨_, rfl⟩
  | case11 acc v rest2 h1 h2 h3 h4 h5 ih =>
    intro g1 g2 g3
    simp only [List.mem_cons, not_or] at g1 g2 g3
    obtain ⟨m, hm⟩ := ih g1.2.2 g2.2.2 g3.2.2
    exact ⟨m, hm⟩
  | case12 rest acc h1 h2 h3 h4 h5 h6 ih =>
    intro g1 g2 g3
    simp only [List.mem_cons, not_or] at g1 g2 g3
    obtain ⟨m, hm⟩ := ih g1.2 g2.2 g3.2
    refine ⟨m, ?_⟩
    rw [scanFlags.eq_def]
    dsimp only
    rw [if_neg h1, if_neg h2, if_neg h3, if_neg h4, if_neg h5, if_neg h6, if_pos rfl]
    exact hm
  | case13 t rest acc h1 h2 h3 h4 h5 h6 h7 =>
    intro _ _ _
    refine ⟨"Invalid argument", ?_⟩
    rw [scanFlags.eq_def]
    dsimp only
    rw [if_neg h1, if_neg h2, if_neg h3, if_neg h4, if_neg h5, if_neg h6, if_neg h7]

lemma findEq_none_of (l : List String) (h : "=" ∉ l) : findEq l = none := by
  induction l with
  | nil => rfl
  | cons a t ih =>
    simp only [List.mem_cons, not_or] at h
    rw [findEq, if_neg (fun ha => h.1 ha.symm), ih h.2]
    rfl

lemma findEq_append_eq (pre post : List String) (h : "=" ∉ pre) :
    findEq (pre ++ "=" :: post) = some pre.length := by
  induction pre with
  | nil =>
    rw [List.nil_append, findEq, if_pos rfl]
    rfl
  | cons a t ih =>
    simp only [List.mem_cons, not_or] at h
    rw [List.cons_append, findEq, if_neg (fun ha => h.1 ha.symm), ih h.2]
    rfl

lemma findEq_take (l : List String) (k : Nat) (h : findEq l = some k) : "=" ∉ l.take k := by
  induction l generalizing k with
  | nil => exact Option.noConfusion h
  | cons a t ih =>
    by_cases ha : a = "="
    · rw [findEq, if_pos ha] at h
      obtain rfl : (0 : Nat) = k := Option.some_injective _ h
      simp
    · rw [findEq, if_neg ha] at h
      rcases hm : findEq t with _ | k2
      · rw [hm] at h
        simp at h
      · rw [hm] at h
        obtain rfl : k2 + 1 = k := Option.some_injective _ h
        rw [List.take_succ_cons]
        simp only [List.mem_cons, not_or]
        exact ⟨fun hc => ha hc.symm, ih k2 hm⟩

-- ===== Claim theorems =====

/-- C1: For every run that reaches the reporting phase, the program writes exactly
three newline-terminated lines to standard output — first the winner tag, which is
exactly one of 1 (solution) or 2 (interactor), never absent and never both, then the
solution resolved status, then the interactor resolved status — and the program exits
with code 0.  The hypothesis reflects that epoll only ever reports one of the two
registered tags. -/
theorem report_phase_three_lines (env : RunEnv)
    (h : env.first_tag = SOLUTION_TAG ∨ env.first_tag = INTERACTOR_TAG) :
    (report_phase env).stdout_lines =
      [Nat.repr env.first_tag,
       Nat.repr (bash_like_status env.solution_raw),
       Nat.repr (bash_like_status env.interactor_raw)] ∧
    (report_phase env).stdout_lines.length = 3 ∧
    render_stdout (report_phase env) =
      Nat.repr env.first_tag ++ "\n" ++
        (Nat.repr (bash_like_status env.solution_raw) ++ "\n" ++
          (Nat.repr (bash_like_status env.interactor_raw) ++ "\n")) ∧
    (((report_phase env).stdout_lines.head? = some "1" ∧
        ¬ (report_phase env).stdout_lines.head? = some "2") ∨
      ((report_phase env).stdout_lines.head? = some "2" ∧
        ¬ (report_phase env).stdout_lines.head? = some "1")) ∧
    (report_phase env).exit_code = 0 := by
  have hs := final_sol_status env h
  have hi := final_inter_status env h
  have hlines : (report_phase env).stdout_lines =
      [Nat.repr env.first_tag,
       Nat.repr (bash_like_status env.solution_raw),
       Nat.repr (bash_like_status env.interactor_raw)] := by
    show [Nat.repr env.first_tag,
        Nat.repr (final_loop_state env).solution_status,
        Nat.repr (final_loop_state env).interactor_status] = _
    rw [hs, hi]
  refine ⟨hlines, by rw [hlines]; rfl, ?_, ?_, rfl⟩
  · show render_lines (report_phase env).stdout_lines = _
    rw [hlines]
    simp [render_lines, String.append_empty, String.append_assoc]
  · rw [hlines]
    rcases h with h | h <;> rw [h]
    · refine Or.inl ⟨rfl, ?_⟩
      simp only [List.head?_cons]
      decide
    · refine Or.inr ⟨rfl, ?_⟩
      simp only [List.head?_cons]
      decide

/-- C1 witness: a concrete run (solution wins, both sides exit cleanly) produces
exactly the lines 1, 0, 0 and exit code 0. -/
theorem report_phase_three_lines_witness :
    (report_phase ⟨1, 0, 0, false, false⟩).stdout_lines = ["1", "0", "0"] ∧
    (report_phase ⟨1, 0, 0, false, false⟩).exit_code = 0 := by
  have h := report_phase_three_lines ⟨1, 0, 0, false, false⟩ (Or.inl rfl)
  exact ⟨h.1.trans (by decide), h.2.2.2.2⟩

/-- C2: For every raw waitpid termination status, bash_like_status returns the exit
code as-is on normal exit, 128 plus the terminating signal number on
signal-termination, 128 plus the stop-signal number when stopped, and 0 in any
other state. -/
theorem bash_like_status_cases (s : Nat) :
    (WIFEXITED s = true → bash_like_status s = WEXITSTATUS s) ∧
    (WIFSIGNALED s = true → bash_like_status s = 128 + WTERMSIG s) ∧
    (WIFSTOPPED s = true → bash_like_status s = 128 + WSTOPSIG s) ∧
    (WIFEXITED s = false → WIFSIGNALED s = false → WIFSTOPPED s = false →
      bash_like_status s = 0) := by
  refine ⟨?_, ?_, ?_, ?_⟩
  · intro h
    simp [bash_like_status, h]
  · intro h
    have hex : WIFEXITED s = false := by
      rw [wifsignaled_eq] at h
      simp only [Bool.and_eq_true, decide_eq_true_eq] at h
      simp only [WIFEXITED, beq_eq_false_iff_ne]
      omega
    simp [bash_like_status, hex, h]
  · intro h
    have ht : WTERMSIG s = 127 := stopped_termsig s h
    have hex : WIFEXITED s = false := by
      simp [WIFEXITED, ht]
    have hsig : WIFSIGNALED s = false := by
      rw [wifsignaled_eq, ht]
      decide
    simp [bash_like_status, hex, hsig, h]
  · intro h1 h2 h3
    simp [bash_like_status, h1, h2, h3]

/-- C2 witness: concrete statuses — normal exit with code 3 (0x0300), killed by
signal 9 (137 = 128 + 9), stopped by signal 5 (0x057f, 133 = 128 + 5), and the
untranslatable WIFCONTINUED word 0xffff (0). -/
theorem bash_like_status_cases_witness :
    bash_like_status 768 = 3 ∧ bash_like_status 9 = 137 ∧
    bash_like_status 1407 = 133 ∧ bash_like_status 65535 = 0 :=
  ⟨((bash_like_status_cases 768).1 (by decide)).trans (by decide),
   ((bash_like_status_cases 9).2.1 (by decide)).trans (by decide),
   ((bash_like_status_cases 1407).2.2.1 (by decide)).trans (by decide),
   (bash_like_status_cases 65535).2.2.2 (by decide) (by decide) (by decide)⟩

/-- C3 counterexample: the claim predicts that for a detected winner the
non-winning side is awaited first, i.e. for winner tag 1 the wait order would be
[interactor, solution]; the wait order of the code at tag 1 is not that list. -/
theorem wait_order_claim_counterexample :
    wait_order SOLUTION_TAG ≠
      [other_side (side_of_tag SOLUTION_TAG), side_of_tag SOLUTION_TAG] := by
  decide

/-- C3 (amended): for every detected winner tag, the side of the declared winner is
awaited first and the other side is awaited second. -/
theorem wait_order_winner_first (t : Nat)
    (h : t = SOLUTION_TAG ∨ t = INTERACTOR_TAG) :
    wait_order t = [side_of_tag t, other_side (side_of_tag t)] := by
  rcases h with h | h <;> subst h <;> decide

/-- C3 witness: at winner tag 1 the wait order is [solution, interactor]. -/
theorem wait_order_winner_first_witness :
    wait_order SOLUTION_TAG = [Side.solution, Side.interactor] :=
  (wait_order_winner_first SOLUTION_TAG (Or.inl rfl)).trans (by decide)

/-- C4: the claim says every occurrence of the placeholder in a token is replaced,
leaving no residual placeholder text; the code replaces only the first occurrence
per token (single strstr, no loop), so the token made of two placeholders, with
descriptor 5, evaluates to "5__FD__", which still contains the placeholder. -/
theorem replace_fd_first_occurrence_only :
    replace_fd_in_args [String.toList "__FD____FD__"] 5 = [String.toList "5__FD__"] ∧
    containsPat (String.toList "5__FD__") fdPattern = true := by
  decide

/-- C5: the claim says `-i FILE` redirects the standard input of the spawned solution
and `-o FILE` its standard output; in the code, fill_in_solution_stdio wires only
the stderr field, so after parsing `-i in.txt -o out.txt -- sol = itr` and both
fill functions, the spawned solution inherits its stdin and stdout (no freopen),
while the files are wired only to the stdout/stdin of the interactor. -/
theorem solution_stdio_unredirected :
    ∃ a, parse_arguments ["-i", "in.txt", "-o", "out.txt", "--", "sol", "=", "itr"] =
        ParseResult.ok a ∧
      run_process_stdio (fill_all a).solution_args =
        { stdin_file := none, stdout_file := none, stderr_file := none } ∧
      (fill_all a).interactor_args.output = some "in.txt" ∧
      (fill_all a).interactor_args.input = some "out.txt" := by
  refine ⟨{ initParsedArgs with
    solution_input := some "in.txt",
    solution_output := some "out.txt",
    solution_args := { argv := ["sol"] },
    interactor_args := { argv := ["itr"] } }, ?_, ?_, ?_, ?_⟩
  · decide
  · decide
  · decide
  · decide

/-- C6: every malformed token list — missing the two delimiters, an empty side,
an unrecognized flag, or a value flag with no following token — is rejected with
the corresponding diagnostic, the program exits with code 1, and no child process
is spawned. -/
theorem parse_malformed_rejected :
    (∀ ts : List String, "--" ∉ ts → "-h" ∉ ts → "--help" ∉ ts →
      ∃ m, parse_arguments ts = ParseResult.err m) ∧
    (∀ (acc : ParsedArgs) (rest : List String), "=" ∉ rest →
      parseTail acc rest =
        ParseResult.err "Missing \x27=\x27 delimiter for interactor arguments") ∧
    (∀ (acc : ParsedArgs) (post : List String),
      parseTail acc ("=" :: post) = ParseResult.err "No solution arguments provided") ∧
    (∀ (acc : ParsedArgs) (pre : List String), pre ≠ [] → "=" ∉ pre →
      parseTail acc (pre ++ ["="]) =
        ParseResult.err "No interactor arguments provided") ∧
    (∀ (acc : ParsedArgs) (t : String) (rest : List String), recognized_flag t = false →
      scanFlags (t :: rest) acc = ScanOut.err "Invalid argument") ∧
    (∀ acc : ParsedArgs,
      scanFlags ["-i"] acc = ScanOut.err "-i flag requires an argument" ∧
      scanFlags ["-o"] acc = ScanOut.err "-o flag requires an argument" ∧
      scanFlags ["-e"] acc = ScanOut.err "-e flag requires an argument" ∧
      scanFlags ["-E"] acc = ScanOut.err "-E flag requires an argument") ∧
    (∀ (ts : List String) (m : String), parse_arguments ts = ParseResult.err m →
      spawned_children ts = [] ∧ parse_exit_code (parse_arguments ts) = some 1) := by
  refine ⟨?_, ?_, ?_, ?_, ?_, ?_, ?_⟩
  · intro ts h1 h2 h3
    obtain ⟨m, hm⟩ := scan_no_delim ts initParsedArgs h1 h2 h3
    exact ⟨m, by rw [parse_arguments, hm]⟩
  · intro acc rest h
    rw [parseTail, findEq_none_of rest h]
  · intro acc post
    rw [parseTail]
    have : findEq ("=" :: post) = some 0 := by rw [findEq, if_pos rfl]
    rw [this]
    rfl
  · intro acc pre h1 h2
    rw [parseTail, findEq_append_eq pre [] h2]
    dsimp only
    have htake : (pre ++ ["="]).take pre.length = pre := List.take_left pre ["="]
    have hdrop : (pre ++ ["="]).drop (pre.length + 1) = [] :=
      List.drop_eq_nil_of_le (by rw [List.length_append]; simp)
    rw [htake, hdrop, if_neg (fun hl => h1 (List.length_eq_zero.mp hl))]
    rfl
  · intro acc t rest h
    simp only [recognized_flag, Bool.or_eq_false_iff, beq_eq_false_iff_ne] at h
    obtain ⟨⟨⟨⟨⟨⟨⟨hd, hh⟩, hhp⟩, hi⟩, ho⟩, he⟩, hE⟩, hv⟩ := h
    rw [scanFlags.eq_def]
    dsimp only
    rw [if_neg hd, if_neg (not_or.mpr ⟨hh, hhp⟩), if_neg hi, if_neg ho, if_neg he,
      if_neg hE, if_neg hv]
  · intro acc
    exact ⟨rfl, rfl, rfl, rfl⟩
  · intro ts m h
    constructor
    · rw [spawned_children, h]
    · rw [h]
      rfl

/-- C6 witness: concrete malformed inputs for each rejection category, plus the
no-spawn/exit-1 consequence on one of them. -/
theorem parse_malformed_rejected_witness :
    (∃ m, parse_arguments ["a", "b"] = ParseResult.err m) ∧
    parseTail initParsedArgs ["a"] =
      ParseResult.err "Missing \x27=\x27 delimiter for interactor arguments" ∧
    parseTail initParsedArgs ["=", "a", "b"] =
      ParseResult.err "No solution arguments provided" ∧
    parseTail initParsedArgs (["a"] ++ ["="]) =
      ParseResult.err "No interactor arguments provided" ∧
    scanFlags ["-x", "--"] initParsedArgs = ScanOut.err "Invalid argument" ∧
    scanFlags ["-i"] initParsedArgs = ScanOut.err "-i flag requires an argument" ∧
    spawned_children ["a", "b"] = [] ∧
    parse_exit_code (parse_arguments ["a", "b"]) = some 1 := by
  refine ⟨parse_malformed_rejected.1 ["a", "b"] (by decide) (by decide) (by decide),
    parse_malformed_rejected.2.1 initParsedArgs ["a"] (by decide),
    parse_malformed_rejected.2.2.1 initParsedArgs ["a", "b"],
    parse_malformed_rejected.2.2.2.1 initParsedArgs ["a"] (by decide) (by decide),
    parse_malformed_rejected.2.2.2.2.1 initParsedArgs "-x" ["--"] (by decide),
    (parse_malformed_rejected.2.2.2.2.2.1 initParsedArgs).1,
    ?_, ?_⟩
  · exact (parse_malformed_rejected.2.2.2.2.2.2 ["a", "b"] "Invalid argument" (by decide)).1
  · exact (parse_malformed_rejected.2.2.2.2.2.2 ["a", "b"] "Invalid argument" (by decide)).2

/-- C7: immediately after the status of a side is resolved, if it is non-zero a SIGTERM
is sent to the other side; a failed delivery is logged and execution still produces
the three-line output and exit code 0 (never fatal). -/
theorem cascade_sigterm_nonfatal (env : RunEnv)
    (h : env.first_tag = SOLUTION_TAG ∨ env.first_tag = INTERACTOR_TAG) :
    (bash_like_status env.solution_raw ≠ 0 →
      Side.interactor ∈ (report_phase env).kills_sent) ∧
    (bash_like_status env.interactor_raw ≠ 0 →
      Side.solution ∈ (report_phase env).kills_sent) ∧
    (bash_like_status env.solution_raw ≠ 0 → env.kill_interactor_fails = true →
      Side.interactor ∈ (report_phase env).kill_fail_logs) ∧
    (bash_like_status env.interactor_raw ≠ 0 → env.kill_solution_fails = true →
      Side.solution ∈ (report_phase env).kill_fail_logs) ∧
    (report_phase env).exit_code = 0 ∧
    (report_phase env).stdout_lines.length = 3 := by
  refine ⟨?_, ?_, ?_, ?_, rfl, rfl⟩
  · intro hnz
    exact final_kill_inter env h hnz
  · intro hnz
    exact final_kill_sol env h hnz
  · intro hnz hf
    exact final_log_inter env h hnz hf
  · intro hnz hf
    exact final_log_sol env h hnz hf

/-- C7 witness: solution wins with status 1, interactor ends with status 137, both
kill deliveries fail — both SIGTERMs are attempted and logged, and the run still
reports three lines and exit code 0. -/
theorem cascade_sigterm_nonfatal_witness :
    Side.interactor ∈ (report_phase ⟨1, 256, 9, true, true⟩).kills_sent ∧
    Side.solution ∈ (report_phase ⟨1, 256, 9, true, true⟩).kills_sent ∧
    Side.interactor ∈ (report_phase ⟨1, 256, 9, true, true⟩).kill_fail_logs ∧
    Side.solution ∈ (report_phase ⟨1, 256, 9, true, true⟩).kill_fail_logs ∧
    (report_phase ⟨1, 256, 9, true, true⟩).exit_code = 0 ∧
    (report_phase ⟨1, 256, 9, true, true⟩).stdout_lines.length = 3 := by
  have h := cascade_sigterm_nonfatal ⟨1, 256, 9, true, true⟩ (Or.inl rfl)
  exact ⟨h.1 (by decide), h.2.1 (by decide), h.2.2.1 (by decide) rfl,
    h.2.2.2.1 (by decide) rfl, h.2.2.2.2.1, h.2.2.2.2.2⟩

/-- C8: for each side, the parent-side event sequence of run_process restores the
close-on-exec attribute on the private descriptor of that side and closes the
parent-held copy immediately after the fork, and after both spawns the fd table of
the parent no longer holds the write endpoint of either pipe. -/
theorem parent_releases_write_endpoints (s0 : FdState) (r1 w1 r2 w2 : Nat) :
    run_process_events Side.solution w1 =
      [SpawnEvent.op (FdOp.clearCloexec w1), SpawnEvent.forked Side.solution,
       SpawnEvent.op (FdOp.setCloexec w1), SpawnEvent.op (FdOp.closeFd w1)] ∧
    run_process_events Side.interactor w2 =
      [SpawnEvent.op (FdOp.clearCloexec w2), SpawnEvent.forked Side.interactor,
       SpawnEvent.op (FdOp.setCloexec w2), SpawnEvent.op (FdOp.closeFd w2)] ∧
    w1 ∉ (main_fd_state s0 r1 w1 r2 w2).open_fds ∧
    w2 ∉ (main_fd_state s0 r1 w1 r2 w2).open_fds := by
  refine ⟨rfl, rfl, ?_, ?_⟩
  · intro hmem
    simp only [main_fd_state, create_pipe_state, create_pipe_events, run_process_events,
      apply_events, applyEvent, applyFdOp, List.foldl, List.mem_filter,
      decide_eq_true_eq] at hmem
    exact hmem.1.2 rfl
  · intro hmem
    simp only [main_fd_state, create_pipe_state, create_pipe_events, run_process_events,
      apply_events, applyEvent, applyFdOp, List.foldl, List.mem_filter,
      decide_eq_true_eq] at hmem
    exact hmem.2 rfl

/-- C9 counterexample: the claim predicts that the token list
-i -- prog = prog2 fails with the missing-delimiter diagnostic; it actually fails
with the unknown-option diagnostic (the token prog is scanned as a flag). -/
theorem flag_value_verbatim_counterexample :
    parse_arguments ["-i", "--", "prog", "=", "prog2"] =
      ParseResult.err "Invalid argument" ∧
    ParseResult.err "Invalid argument" ≠
      ParseResult.err "Missing \x27--\x27 delimiter for solution arguments" := by
  constructor
  · decide
  · decide

/-- C9 (amended): for every value-taking flag the immediately following token is
consumed verbatim as the value of the flag — even when it is a delimiter or a flag
name — and the list -i -- prog = prog2 therefore fails with the unknown-option
(Invalid argument) diagnostic on prog, not by parsing the consumed delimiter. -/
theorem flag_value_verbatim :
    (∀ (acc : ParsedArgs) (v : String) (rest : List String),
      scanFlags ("-i" :: v :: rest) acc =
        scanFlags rest { acc with solution_input := some v }) ∧
    (∀ (acc : ParsedArgs) (v : String) (rest : List String),
      scanFlags ("-o" :: v :: rest) acc =
        scanFlags rest { acc with solution_output := some v }) ∧
    (∀ (acc : ParsedArgs) (v : String) (rest : List String),
      scanFlags ("-e" :: v :: rest) acc =
        scanFlags rest { acc with solution_stderr := some v }) ∧
    (∀ (acc : ParsedArgs) (v : String) (rest : List String),
      scanFlags ("-E" :: v :: rest) acc =
        scanFlags rest { acc with interactor_stderr := some v }) ∧
    parse_arguments ["-i", "--", "prog", "=", "prog2"] =
      ParseResult.err "Invalid argument" := by
  refine ⟨fun acc v rest => rfl, fun acc v rest => rfl, fun acc v rest => rfl,
    fun acc v rest => rfl, by decide⟩

/-- C10: in every accepted token list the solution argument vector never contains
the literal = token — the first = after the -- delimiter is always the split
point — while any later = tokens remain ordinary tokens of the interactor
argument vector. -/
theorem solution_argv_no_eq :
    (∀ (ts : List String) (a : ParsedArgs), parse_arguments ts = ParseResult.ok a →
      "=" ∉ a.solution_args.argv) ∧
    (∀ (acc : ParsedArgs) (pre post : List String), "=" ∉ pre → pre ≠ [] → post ≠ [] →
      parseTail acc (pre ++ "=" :: post) =
        ParseResult.ok { acc with
          solution_args := { argv := pre },
          interactor_args := { argv := post } }) := by
  constructor
  · intro ts a h
    rw [parse_arguments] at h
    rcases hs : scanFlags ts initParsedArgs with m | _ | ⟨acc, rest⟩ <;> rw [hs] at h
    · exact ParseResult.noConfusion h
    · exact ParseResult.noConfusion h
    · dsimp only at h
      rw [parseTail.eq_def] at h
      rcases hf : findEq rest with _ | k <;> rw [hf] at h
      · exact ParseResult.noConfusion h
      · dsimp only at h
        by_cases hz : (rest.take k).length = 0
        · rw [if_pos hz] at h
          exact ParseResult.noConfusion h
        · rw [if_neg hz] at h
          by_cases hz2 : (rest.drop (k + 1)).length = 0
          · rw [if_pos hz2] at h
            exact ParseResult.noConfusion h
          · rw [if_neg hz2] at h
            obtain rfl := ParseResult.ok.inj h
            exact findEq_take rest k hf
  · intro acc pre post h1 h2 h3
    rw [parseTail, findEq_append_eq pre post h1]
    dsimp only
    have htake : (pre ++ "=" :: post).take pre.length = pre := List.take_left pre ("=" :: post)
    have hassoc : pre ++ "=" :: post = (pre ++ ["="]) ++ post := by
      rw [List.append_assoc]
      rfl
    have hdrop : (pre ++ "=" :: post).drop (pre.length + 1) = post := by
      rw [hassoc]
      have hlen : (pre ++ ["="]).length = pre.length + 1 := by
        rw [List.length_append]
        rfl
      rw [show pre.length + 1 = (pre ++ ["="]).length from hlen.symm, List.drop_left]
    rw [htake, hdrop, if_neg (fun hl => h2 (List.length_eq_zero.mp hl)),
      if_neg (fun hl => h3 (List.length_eq_zero.mp hl))]

/-- C10 witness: the accepted list -- a = b = c yields solution vector [a] (no =)
and the split helper keeps a later = inside the interactor vector. -/
theorem solution_argv_no_eq_witness :
    "=" ∉ ({ initParsedArgs with
        solution_args := { argv := ["a"] },
        interactor_args := { argv := ["b", "=", "c"] } } : ParsedArgs).solution_args.argv ∧
    parseTail initParsedArgs (["a"] ++ "=" :: ["b", "=", "c"]) =
      ParseResult.ok { initParsedArgs with
        solution_args := { argv := ["a"] },
        interactor_args := { argv := ["b", "=", "c"] } } := by
  constructor
  · exact solution_argv_no_eq.1 ["--", "a", "=", "b", "=", "c"] _ (by decide)
  · exact solution_argv_no_eq.2 initParsedArgs ["a"] ["b", "=", "c"] (by decide)
      (by decide) (by decide)
